import Mathlib

/-!
Verification development for the BFit repository.

This file gives a shallow embedding, over the real numbers, of the parts of the
repository that the verified properties talk about:

* `src/fitting/grid.py` — the radial/cubic grid constructors and the
  trapezoidal `integrate` method (`trapz`, `integrate`, `uniformRadialGrid`,
  `clenshawRadialGrid`, `cubicGrid`);
* `src/bfit/measure.py` — the `KLDivergence` measure (`KLDivergence.make`,
  `KLDivergence.evaluate`);
* `src/bfit/greedy/greedy_lq.py` — the `GreedyLeastSquares` strategy
  (`solve_one_function_weight`, `get_best_one_function_solution`,
  `get_optimization_routine`, `get_cost_function`).

NumPy float arrays are modelled as `List ℝ`; elementwise NumPy operations
become `List.map` / `List.zipWith`; `np.sum` becomes `List.sum`; Python
exceptions become the `Except.error` branch of an `Except String` result.
Code of the repository that is referenced by `greedy_lq.py` but whose file is
absent (`bfit/model.py`, `bfit/greedy/optimize.py`, `bfit/greedy/greedy_strat.py`)
is modelled from the specification; each such definition carries a doc comment
starting with `Modelled from the spec:`.
-/

open scoped Classical

noncomputable section

namespace BFit

/-! ### Grids: src/fitting/grid.py -/

/-- Embedding of `np.trapz(y=y, x=x)`: the composite trapezoidal rule
`Σ (x_{i+1} - x_i) * (y_i + y_{i+1}) / 2` over consecutive sample points. -/
def trapz : List ℝ → List ℝ → ℝ
  | y1 :: y2 :: ys, x1 :: x2 :: xs => (x2 - x1) * (y1 + y2) / 2 + trapz (y2 :: ys) (x2 :: xs)
  | _, _ => 0

/-- Embedding of `BaseRadialGrid.integrate` (src/fitting/grid.py lines 66-90):
shape check, then `4 pi * trapz(points^2 * arr, points)` in the spherical case
and `trapz(arr, points)` otherwise. -/
def integrate (spherical : Bool) (points arr : List ℝ) : Except String ℝ :=
  if arr.length ≠ points.length then
    Except.error ("The argument arr should have the points shape")
  else if spherical then
    Except.ok (4 * Real.pi * trapz (List.zipWith (fun p a => p ^ 2 * a) points arr) points)
  else
    Except.ok (trapz arr points)

/-- Embedding of `np.linspace(start, stop, num)`: `num` evenly spaced samples,
endpoints included (a single sample is just `start`). -/
def linspace (start stop : ℝ) (num : ℕ) : List ℝ :=
  if num = 1 then [start]
  else (List.range num).map (fun i => start + i * (stop - start) / ((num : ℝ) - 1))

/-- Embedding of `UniformRadialGrid.__init__` (src/fitting/grid.py lines 101-125):
validates `num_pts > 0` and `max_radii > min_radii`, then produces the
`np.linspace` points together with the spherical flag. -/
def uniformRadialGrid (num_pts : ℤ) (min_radii max_radii : ℝ) (spherical : Bool) :
    Except String (List ℝ × Bool) :=
  if num_pts ≤ 0 then Except.error ("TypeError num_pts should be a number")
  else if max_radii ≤ min_radii then
    Except.error ("ValueError the max_radii should be greater than the min_radii")
  else Except.ok (linspace min_radii max_radii num_pts.toNat, spherical)

/-- Embedding of `ClenshawRadialGrid._get_points` with `mode="core"`:
`(1 - cos(0.5 * pi * p / N)) / (2 * Z)` for `p = 0, ..., N-1`. -/
def clenshaw_points_core (atomic_number : ℤ) (num_pts : ℕ) : List ℝ :=
  (List.range num_pts).map
    (fun p => (1 - Real.cos (0.5 * Real.pi * p / num_pts)) / (2 * atomic_number))

/-- Embedding of `ClenshawRadialGrid._get_points` with `mode="diffuse"`:
`25 * (1 - cos(0.5 * pi * p / N))` for `p = 0, ..., N-1`. -/
def clenshaw_points_diffuse (num_pts : ℕ) : List ℝ :=
  (List.range num_pts).map (fun p => 25 * (1 - Real.cos (0.5 * Real.pi * p / num_pts)))

/-- Embedding of `ClenshawRadialGrid.__init__` (src/fitting/grid.py lines 135-172):
validates `atomic_number > 0`, `num_core_pts >= 0` and `num_diffuse_pts >= 0`,
builds core and diffuse points, drops the leading `0.0` of the diffuse points,
appends the extra points when a non-empty iterable is given (`if extra_pts:` is
falsy for `None` and for an empty list), and sorts the result. -/
def clenshawRadialGrid (atomic_number num_core_pts num_diffuse_pts : ℤ)
    (extra_pts : Option (List ℝ)) (spherical : Bool) : Except String (List ℝ × Bool) :=
  if atomic_number ≤ 0 then
    Except.error ("TypeError atomic_number should be a positive integer")
  else if num_core_pts < 0 then
    Except.error ("TypeError num_core_pts should be a non-negative integer")
  else if num_diffuse_pts < 0 then
    Except.error ("TypeError num_diffuse_pts should be a non-negative integer")
  else
    let core := clenshaw_points_core atomic_number num_core_pts.toNat
    let diff := clenshaw_points_diffuse num_diffuse_pts.toNat
    let pts :=
      match extra_pts with
      | some (x :: xs) => core ++ diff.drop 1 ++ (x :: xs)
      | _ => core ++ diff.drop 1
    Except.ok (pts.mergeSort (fun x y => decide (x ≤ y)), spherical)

/-- Embedding of `CubicGrid.__init__` (src/fitting/grid.py lines 221-250):
validates `step_size > 0` and `largest_pnt > smallest_pnt`, then builds the
lexicographically ordered triples over the `np.arange` axis points. -/
def cubicGrid (smallest_pnt largest_pnt step_size : ℝ) :
    Except String (List (ℝ × ℝ × ℝ) × ℝ) :=
  if step_size ≤ 0 then Except.error ("TypeError the argument step_size should be a positive number")
  else if largest_pnt ≤ smallest_pnt then
    Except.error ("ValueError the largest_pnt should be greater than the smallest_pnt")
  else
    let n : ℕ := ⌈(largest_pnt + step_size - smallest_pnt) / step_size⌉₊
    let pts1d := (List.range n).map (fun k => smallest_pnt + k * step_size)
    Except.ok (pts1d.flatMap (fun x => pts1d.flatMap (fun y => pts1d.map (fun z => (x, y, z)))),
      step_size)

/-- Helper: whether an `Except` result is the `error` branch (a raised Python
exception in the embedding). -/
def errored {α : Type _} : Except String α → Bool
  | Except.error _ => true
  | Except.ok _ => false

/-! ### Measures: src/bfit/measure.py -/

/-- State of a constructed `KLDivergence` object: the target density array and
the mask value. -/
structure KLDivergence where
  density : List ℝ
  mask_value : ℝ

/-- Default of the `mask_value` argument of `KLDivergence.__init__`. -/
def defaultMaskValue : ℝ := 1e-12

/-- Embedding of `KLDivergence.__init__` (src/bfit/measure.py lines 117-134) on
1-D array input: raises `ValueError` when any density element is negative,
otherwise stores the density and the mask value. -/
def KLDivergence.make (density : List ℝ) (mask_value : ℝ) : Except String KLDivergence :=
  if ∃ x ∈ density, x < 0 then Except.error ("Argument density should be positive")
  else Except.ok ⟨density, mask_value⟩

/-- Embedding of `KLDivergence.evaluate` (src/bfit/measure.py lines 149-213) on
1-D array input: shape check, negativity check, then the floor-masked ratio
`density / masked(model)` filled with `1`, the integrand `density * log(ratio)`
and, when `deriv` is set, the derivative `-ratio`. -/
def KLDivergence.evaluate (kl : KLDivergence) (model : List ℝ) (deriv : Bool) :
    Except String (List ℝ × Option (List ℝ)) :=
  if model.length ≠ kl.density.length then
    Except.error ("Number of points in the model should be the same as in the density")
  else if ∃ x ∈ model, x < 0 then
    Except.error ("Model density is negative and should be non-negative")
  else
    let rat := List.zipWith (fun f g => if g ≤ kl.mask_value then 1 else f / g) kl.density model
    let value := List.zipWith (fun f x => f * Real.log x) kl.density rat
    if deriv then Except.ok (value, some (rat.map (fun x => -x)))
    else Except.ok (value, none)

/-- Specification-side formula for one point of the KL integrand, written the
way the spec states it: where the model is at or below the floor the ratio is
replaced by `1` (so the contribution is `density * ln 1`), elsewhere it is
`density * ln(density / model)`. Used to compare `KLDivergence.evaluate`
against the spec. -/
def kl_spec_integrand (mask f g : ℝ) : ℝ :=
  if g ≤ mask then f * Real.log 1 else f * Real.log (f / g)

/-- Specification-side formula for one point of the KL derivative with respect
to the model: the negation of the floor-masked ratio. -/
def kl_spec_deriv (mask f g : ℝ) : ℝ :=
  -(if g ≤ mask then 1 else f / g)

/-! ### Gaussian density model (spec-modelled, bfit/model.py is absent from src) -/

/-- Elementwise product followed by `np.sum`: `np.sum(a * b)`. -/
def dot (a b : List ℝ) : ℝ := (List.zipWith (fun x y => x * y) a b).sum

/-- Modelled from the spec: `AtomicGaussianDensity.create_model` of the absent
`bfit/model.py`. Spec section 4.3: the model array is
`Σ_k coeff_k * exp(-exponent_k * r^2)` evaluated at every grid point, where the
parameter vector holds the K coefficients first and the K exponents last. -/
def create_model (pts params : List ℝ) : List ℝ :=
  let coeffs := params.take (params.length / 2)
  let exps := params.drop (params.length / 2)
  pts.map (fun r => (List.zipWith (fun c a => c * Real.exp (-a * r ^ 2)) coeffs exps).sum)

/-- Modelled from the spec: `AtomicGaussianDensity.cost_function` of the absent
`bfit/model.py`. Spec section 4.3: the scalar cost is the sum of squared
residuals between the target density and the model. -/
def cost_function (pts density params : List ℝ) : ℝ :=
  (List.zipWith (fun x y => (x - y) ^ 2) density (create_model pts params)).sum

/-- Modelled from the spec: `AtomicGaussianDensity.create_cofactor_matrix` of
the absent `bfit/model.py`. Spec section 4.3: the N x K design matrix with
entry `(i, k) = exp(-exponent_k * r_i^2)`, a pure function of the exponents.
Rows are indexed by grid points. -/
def create_cofactor_matrix (pts exps : List ℝ) : List (List ℝ) :=
  pts.map (fun r => exps.map (fun a => Real.exp (-a * r ^ 2)))

/-! ### Greedy strategy: src/bfit/greedy/greedy_lq.py -/

/-- State of a `GreedyLeastSquares` object: the grid points, the target density
(`gauss_obj._density`), and the `element` attribute of the underlying
`AtomicGaussianDensity` model. The `element` field is modelled from the spec
(`bfit/model.py` is absent from src): it is `none` unless a chemical element
with a table of standard initial exponents was supplied. -/
structure GreedyLeastSquares where
  points : List ℝ
  density : List ℝ
  element : Option String

/-- Embedding of `GreedyLeastSquares.get_cost_function` (greedy_lq.py lines
49-50): the body evaluates `self.gauss_obj.cost_function(params)` and has no
return statement, so the Python function returns `None`. -/
def get_cost_function (g : GreedyLeastSquares) (params : List ℝ) : Option ℝ :=
  (fun _ => none) (cost_function g.points g.density params)

/-- Embedding of `GreedyLeastSquares._solve_one_function_weight` (greedy_lq.py
lines 52-66): forms the six weighted sums, solves the 2x2 linear system by the
closed-form quotients, and returns `[exp(big_a), -big_b]`. -/
def solve_one_function_weight (pts density w : List ℝ) : List ℝ :=
  let a := 2 * w.sum
  let b := 2 * dot w (pts.map (fun x => x ^ 2))
  let c := 2 * dot w (density.map Real.log)
  let d := b
  let e := 2 * dot w (pts.map (fun x => x ^ 4))
  let f := 2 * dot w (List.zipWith (fun x y => x ^ 2 * Real.log y) pts density)
  let big_a := (b * f - c * e) / (b * d - a * e)
  let big_b := (a * f - c * d) / (a * e - b * d)
  [Real.exp big_a, -big_b]

/-- The denominator `b * d - a * e` of the closed-form solve in
`_solve_one_function_weight`; the 2x2 system is singular exactly when this
determinant-like expression is zero. -/
def seedDenominator (pts w : List ℝ) : ℝ :=
  (2 * dot w (pts.map (fun x => x ^ 2))) * (2 * dot w (pts.map (fun x => x ^ 2)))
    - (2 * w.sum) * (2 * dot w (pts.map (fun x => x ^ 4)))

/-- The first seed candidate of `get_best_one_function_solution`: uniform
weight `np.ones(len(points))`. -/
def seed_candidate_1 (g : GreedyLeastSquares) : List ℝ :=
  solve_one_function_weight g.points g.density (List.replicate g.points.length 1)

/-- The second seed candidate: weight equal to the target density. -/
def seed_candidate_2 (g : GreedyLeastSquares) : List ℝ :=
  solve_one_function_weight g.points g.density g.density

/-- The third seed candidate: weight equal to the squared target density. -/
def seed_candidate_3 (g : GreedyLeastSquares) : List ℝ :=
  solve_one_function_weight g.points g.density (g.density.map (fun x => x ^ 2))

/-- True cost of the first seed candidate (`cost_func1` in the source). -/
def seed_cost_1 (g : GreedyLeastSquares) : ℝ :=
  cost_function g.points g.density (seed_candidate_1 g)

/-- True cost of the second seed candidate (`cost_func2` in the source). -/
def seed_cost_2 (g : GreedyLeastSquares) : ℝ :=
  cost_function g.points g.density (seed_candidate_2 g)

/-- True cost of the third seed candidate (`cost_func3` in the source). -/
def seed_cost_3 (g : GreedyLeastSquares) : ℝ :=
  cost_function g.points g.density (seed_candidate_3 g)

/-- Embedding of `GreedyLeastSquares.get_best_one_function_solution`
(greedy_lq.py lines 68-108). The three weighted candidates and their costs are
computed unconditionally; `p_min` is the first pair attaining the minimal cost
(Python `min` keeps the earliest minimum). Then:

* if `self.gauss_obj.element` is set, the UGBS branch runs and crashes: the
  source calls `np.append((exp_choice1, exp_choice2, exp_choice3))` with a
  single positional argument, which raises `TypeError` (`np.append` requires
  two); moreover `self.ugbs` is never assigned. This is embedded as the
  `TypeError` error branch;
* otherwise `val` is still `1e10`, and `return p_min[1]` runs only when
  `p_min[0] < 1e10`; the fall-through `return best_found` hits the unbound
  local `best_found` and raises `NameError`, embedded as the error branch. -/
def get_best_one_function_solution (g : GreedyLeastSquares) : Except String (List ℝ) :=
  let cost12 := if seed_cost_2 g < seed_cost_1 g then seed_cost_2 g else seed_cost_1 g
  let cand12 := if seed_cost_2 g < seed_cost_1 g then seed_candidate_2 g else seed_candidate_1 g
  let cost_min := if seed_cost_3 g < cost12 then seed_cost_3 g else cost12
  let p_min := if seed_cost_3 g < cost12 then seed_candidate_3 g else cand12
  match g.element with
  | some _ => Except.error ("TypeError np.append missing required argument values")
  | none =>
    if cost_min < 1e10 then Except.ok p_min
    else Except.error ("NameError best_found is not defined")

/-- Embedding of `GreedyLeastSquares.get_optimization_routine` (greedy_lq.py
lines 114-121). The NNLS and SLSQP solvers live in the absent
`bfit/greedy/optimize.py`; following the spec they are taken as black boxes
(`solve_nnls(design_matrix, target) -> non-negative coefficients` and
`minimize(objective, initial_point, constraints) -> refined point`), passed in
as the function arguments `nnls` and `slsqp`. -/
def get_optimization_routine (nnls : List ℝ → List (List ℝ) → List ℝ)
    (slsqp : List ℝ → List ℝ) (g : GreedyLeastSquares) (params : List ℝ) : List ℝ :=
  let exps := params.drop (params.length / 2)
  let cofac_matrix := create_cofactor_matrix g.points exps
  let coeffs := nnls g.density cofac_matrix
  slsqp (coeffs ++ exps)

/-- The weighted normal equations of the log-linearized model
`ln(density) ~ A + B * r^2` (with `A = ln coefficient`, `B = -exponent`), as
stated by the spec: this is the 2x2 linear system whose solution the seed
stage is claimed to compute in closed form. -/
def normalEquations (pts density w : List ℝ) (A B : ℝ) : Prop :=
  w.sum * A + dot w (pts.map (fun x => x ^ 2)) * B = dot w (density.map Real.log) ∧
  dot w (pts.map (fun x => x ^ 2)) * A + dot w (pts.map (fun x => x ^ 4)) * B
    = dot w (List.zipWith (fun x y => x ^ 2 * Real.log y) pts density)

/-! ### Theorems -/

/-- Helper: `zipWith` over a list and a `zipWith` built from the same list
fuses into a single `zipWith`. -/
lemma zipWith_zipWith_same {α β γ δ : Type _} (f : α → γ → δ) (g : α → β → γ) :
    ∀ (l1 : List α) (l2 : List β),
      List.zipWith f l1 (List.zipWith g l1 l2) = List.zipWith (fun a b => f a (g a b)) l1 l2
  | [], _ => by simp
  | _ :: _, [] => by simp
  | a :: l1, b :: l2 => by
    simp only [List.zipWith]
    rw [zipWith_zipWith_same f g l1 l2]

/-- C10: for every parameter vector, `GreedyLeastSquares.get_cost_function`
invokes the model's cost function but has no return statement, so it returns
`None`; no caller of this wrapper can observe a cost value. -/
theorem C10_get_cost_function_returns_none (g : GreedyLeastSquares) (params : List ℝ) :
    get_cost_function g params = none := rfl

/-- C4 (code evaluated at the failing input): whenever the `element` attribute
is set, `get_best_one_function_solution` reaches the UGBS branch and raises
`TypeError` (the source calls `np.append((exp_choice1, exp_choice2,
exp_choice3))` with a single positional argument), instead of refining
table-seeded candidates and comparing costs as the claim states. -/
theorem C4_ugbs_branch_crashes :
    get_best_one_function_solution ⟨[0, 1], [1, 1], some "be"⟩
      = Except.error ("TypeError np.append missing required argument values") := rfl

/-- C3 (code evaluated at the failing input): on a grid whose two points
coincide, the closed-form 2x2 system of `_solve_one_function_weight` is
singular for all three weighting schemes (uniform, density, density squared) —
the denominator `b * d - a * e` vanishes — yet the source contains no fallback
and no fitting-error raise for this case; in IEEE arithmetic the `0/0`
quotients become NaN, the NaN cost fails the `p_min[0] < 1e10` test and the
function crashes on the unbound local `best_found` with `NameError`. -/
theorem C3_all_three_seed_systems_singular :
    seedDenominator [1, 1] (List.replicate 2 (1 : ℝ)) = 0 ∧
    seedDenominator [1, 1] [2, 3] = 0 ∧
    seedDenominator [1, 1] ([2, 3].map (fun x => x ^ 2)) = 0 := by
  norm_num [seedDenominator, dot, List.replicate]

/-- C6: `KLDivergence` construction fails exactly when some density element is
negative, and `KLDivergence.evaluate` fails on every shape-matching model with
a negative element, returning the validation error without computing any
integrand. -/
theorem C6_kl_validation :
    (∀ (density : List ℝ) (mask_value : ℝ),
      errored (KLDivergence.make density mask_value) = true ↔ ∃ x ∈ density, x < 0) ∧
    (∀ (kl : KLDivergence) (model : List ℝ), model.length = kl.density.length →
      (∃ x ∈ model, x < 0) → ∀ deriv,
        kl.evaluate model deriv
          = Except.error ("Model density is negative and should be non-negative")) := by
  constructor
  · intro density mask_value
    constructor
    · intro h
      by_contra hneg
      rw [KLDivergence.make, if_neg hneg] at h
      simp [errored] at h
    · intro h
      rw [KLDivergence.make, if_pos h]
      rfl
  · intro kl model hlen hneg deriv
    rw [KLDivergence.evaluate, if_neg (by simp [hlen]), if_pos hneg]

/-- Witness for C6 at concrete inputs: a negative density element makes the
constructor fail, a non-negative one does not, and a negative model element
makes evaluation fail. -/
theorem C6_witness :
    errored (KLDivergence.make [-1] defaultMaskValue) = true ∧
    errored (KLDivergence.make [1] defaultMaskValue) = false ∧
    KLDivergence.evaluate ⟨[1], defaultMaskValue⟩ [-1] false
      = Except.error ("Model density is negative and should be non-negative") := by
  refine ⟨?_, ?_, ?_⟩
  · exact (C6_kl_validation.1 [-1] defaultMaskValue).mpr ⟨-1, by simp, by norm_num⟩
  · rw [Bool.eq_false_iff, ne_eq, C6_kl_validation.1 [1] defaultMaskValue]
    push_neg
    intro x hx
    simp only [List.mem_singleton] at hx
    norm_num [hx]
  · exact C6_kl_validation.2 ⟨[1], defaultMaskValue⟩ [-1] rfl ⟨-1, by simp, by norm_num⟩ false

/-- Helper for C7: on matching density/model lists the masked self-ratio makes
every integrand entry vanish. -/
lemma self_ratio_value_zero (m : ℝ) (hm : 0 < m) :
    ∀ (l : List ℝ), (∀ x ∈ l, 0 ≤ x) →
      List.zipWith (fun f x => f * Real.log x) l
        (List.zipWith (fun f g => if g ≤ m then 1 else f / g) l l)
        = List.replicate l.length 0
  | [], _ => by simp
  | d :: ds, h => by
    have ih := self_ratio_value_zero m hm ds (fun x hx => h x (by simp [hx]))
    simp only [List.zipWith, List.length_cons, List.replicate_succ, ih, List.cons.injEq,
      and_true]
    by_cases hdm : d ≤ m
    · simp [hdm]
    · have hd0 : d ≠ 0 := by
        have : m < d := lt_of_not_le hdm
        exact ne_of_gt (lt_trans hm this)
      simp [hdm, div_self hd0]

/-- C7: for every 1-D non-negative density, the self-divergence
`KLDivergence(density).evaluate(density)` is exactly zero at every point: the
construction succeeds and evaluation returns the all-zero integrand. -/
theorem C7_self_divergence_zero (density : List ℝ) (h : ∀ x ∈ density, 0 ≤ x) :
    KLDivergence.make density defaultMaskValue = Except.ok ⟨density, defaultMaskValue⟩ ∧
    KLDivergence.evaluate ⟨density, defaultMaskValue⟩ density false
      = Except.ok (List.replicate density.length 0, none) := by
  have hno : ¬ ∃ x ∈ density, x < 0 := by
    push_neg
    exact h
  constructor
  · rw [KLDivergence.make, if_neg hno]
  · rw [KLDivergence.evaluate]
    rw [if_neg (by simp), if_neg hno]
    simp only [Bool.false_eq_true, if_false]
    rw [self_ratio_value_zero defaultMaskValue (by norm_num [defaultMaskValue]) density h]

/-- Witness for C7 at the concrete density `[0, 1]`. -/
theorem C7_witness :
    KLDivergence.make [0, 1] defaultMaskValue = Except.ok ⟨[0, 1], defaultMaskValue⟩ ∧
    KLDivergence.evaluate ⟨[0, 1], defaultMaskValue⟩ [0, 1] false
      = Except.ok ([0, 0], none) := by
  have h := C7_self_divergence_zero [0, 1] (by
    intro x hx
    simp only [List.mem_cons, List.mem_singleton] at hx
    rcases hx with h0 | h1 | hf
    · norm_num [h0]
    · norm_num [h1]
    · simp at hf)
  exact ⟨h.1, by rw [h.2]; rfl⟩

/-- C5: on a shape-matching, elementwise non-negative model, `evaluate` with
`deriv=True` returns exactly the spec formulas: the integrand is
`density * ln(density/model)` where the model exceeds the mask floor and
`density * ln 1 = 0` where it does not, and the derivative array is the
negated floor-masked ratio. -/
theorem C5_kl_evaluate_masked (kl : KLDivergence) (model : List ℝ)
    (hlen : model.length = kl.density.length) (hnn : ∀ x ∈ model, 0 ≤ x) :
    kl.evaluate model true
      = Except.ok (List.zipWith (kl_spec_integrand kl.mask_value) kl.density model,
          some (List.zipWith (kl_spec_deriv kl.mask_value) kl.density model)) ∧
    ∀ f g, g ≤ kl.mask_value → kl_spec_integrand kl.mask_value f g = f * Real.log 1 ∧
      kl_spec_integrand kl.mask_value f g = 0 := by
  have hno : ¬ ∃ x ∈ model, x < 0 := by
    push_neg
    exact hnn
  constructor
  · rw [KLDivergence.evaluate, if_neg (by simp [hlen]), if_neg hno]
    have hv : List.zipWith (fun f x => f * Real.log x) kl.density
        (List.zipWith (fun f g => if g ≤ kl.mask_value then 1 else f / g) kl.density model)
        = List.zipWith (kl_spec_integrand kl.mask_value) kl.density model := by
      rw [zipWith_zipWith_same]
      have hfun : (fun (a b : ℝ) => a * Real.log (if b ≤ kl.mask_value then 1 else a / b))
          = kl_spec_integrand kl.mask_value := by
        funext a b
        by_cases hb : b ≤ kl.mask_value <;> simp [kl_spec_integrand, hb]
      rw [hfun]
    have hd : (List.zipWith (fun f g => if g ≤ kl.mask_value then 1 else f / g)
          kl.density model).map (fun x => -x)
        = List.zipWith (kl_spec_deriv kl.mask_value) kl.density model := by
      rw [List.map_zipWith]
      rfl
    simp only [if_true]
    rw [hv, hd]
  · intro f g hg
    constructor <;> simp [kl_spec_integrand, hg]

/-- Witness for C5 at density `[1, 2]`, model `[0, 1]`: the first model entry
is below the floor (integrand 0, derivative -1), the second is not
(integrand `2 ln 2`, derivative -2). -/
theorem C5_witness :
    KLDivergence.evaluate ⟨[1, 2], defaultMaskValue⟩ [0, 1] true
      = Except.ok ([0, 2 * Real.log 2], some [-1, -2]) := by
  have h := C5_kl_evaluate_masked ⟨[1, 2], defaultMaskValue⟩ [0, 1] rfl (by
    intro x hx
    simp only [List.mem_cons, List.mem_singleton] at hx
    rcases hx with h0 | h1 | hf
    · norm_num [h0]
    · norm_num [h1]
    · simp at hf)
  rw [h.1]
  norm_num [kl_spec_integrand, kl_spec_deriv, defaultMaskValue, Real.log_one]

/-- C2: for every 2K-vector, `get_optimization_routine` (with the NNLS and
SLSQP solvers as the spec's black boxes) rebuilds the cofactor matrix from the
last K entries, obtains non-negative NNLS coefficients against the target
density, and hands the minimizer the initial point `coefficients ++ exponents`,
returning its refined vector; the cofactor matrix entry `(i, k)` is
`exp(-exponent_k * r_i^2)`. -/
theorem C2_optimization_routine (nnls : List ℝ → List (List ℝ) → List ℝ)
    (slsqp : List ℝ → List ℝ) (g : GreedyLeastSquares) (params : List ℝ) (K : ℕ)
    (hK : params.length = 2 * K)
    (hnnls : ∀ d M, ∀ x ∈ nnls d M, 0 ≤ x) :
    get_optimization_routine nnls slsqp g params
      = slsqp (nnls g.density (create_cofactor_matrix g.points (params.drop K))
          ++ params.drop K) ∧
    (params.drop K).length = K ∧
    (∀ x ∈ nnls g.density (create_cofactor_matrix g.points (params.drop K)), 0 ≤ x) ∧
    ∀ i k, i < g.points.length → k < K →
      ((create_cofactor_matrix g.points (params.drop K)).getD i []).getD k 0
        = Real.exp (-(params.drop K).getD k 0 * (g.points.getD i 0) ^ 2) := by
  have hhalf : params.length / 2 = K := by omega
  have hdrop : (params.drop K).length = K := by
    rw [List.length_drop, hK]
    omega
  refine ⟨?_, hdrop, hnnls _ _, ?_⟩
  · simp only [get_optimization_routine, hhalf]
  · intro i k hi hk
    have hi2 : i < (create_cofactor_matrix g.points (params.drop K)).length := by
      simp [create_cofactor_matrix, hi]
    rw [List.getD_eq_getElem _ _ hi2]
    simp only [create_cofactor_matrix, List.getElem_map]
    have hk2 : k < ((params.drop K).map
        (fun a => Real.exp (-a * (g.points[i]) ^ 2))).length := by
      simp only [List.length_map, List.length_drop, hK]
      omega
    rw [List.getD_eq_getElem _ _ hk2]
    simp only [List.getElem_map]
    rw [List.getD_eq_getElem _ _ (by rw [hdrop]; exact hk),
      List.getD_eq_getElem _ _ hi]

/-- Witness for C2 at a concrete 2-vector with stub solvers. -/
theorem C2_witness :
    get_optimization_routine (fun _ _ => [0]) id ⟨[0], [1], none⟩ [2, 3] = [0, 3] ∧
    (([2, 3] : List ℝ).drop 1).length = 1 := by
  have h := C2_optimization_routine (fun _ _ => [0]) id ⟨[0], [1], none⟩ [2, 3] 1 rfl
    (by
      intro d M x hx
      simp only [List.mem_singleton] at hx
      norm_num [hx])
  refine ⟨?_, h.2.1⟩
  rw [h.1]
  rfl

/-- Helper for C8: the recursive `trapz` equals the closed-form trapezoidal
sum `Σ (x_{i+1} - x_i) * (y_i + y_{i+1}) / 2` over consecutive index pairs. -/
lemma trapz_eq_sum : ∀ (y x : List ℝ), y.length = x.length →
    trapz y x = ∑ i ∈ Finset.range (x.length - 1),
      (x.getD (i + 1) 0 - x.getD i 0) * (y.getD i 0 + y.getD (i + 1) 0) / 2
  | [], [], _ => by simp [trapz]
  | [], _ :: _, h => by simp at h
  | _ :: _, [], h => by simp at h
  | [y1], [x1], _ => by simp [trapz]
  | [y1], x1 :: x2 :: xs, h => by simp at h
  | y1 :: y2 :: ys, [x1], h => by simp at h
  | y1 :: y2 :: ys, x1 :: x2 :: xs, h => by
    have ih := trapz_eq_sum (y2 :: ys) (x2 :: xs) (by simpa using h)
    have hlen : (x1 :: x2 :: xs).length - 1 = ((x2 :: xs).length - 1) + 1 := by simp
    rw [show trapz (y1 :: y2 :: ys) (x1 :: x2 :: xs)
        = (x2 - x1) * (y1 + y2) / 2 + trapz (y2 :: ys) (x2 :: xs) from rfl,
      ih, hlen, Finset.sum_range_succ']
    simp only [List.getD_cons_succ, List.getD_cons_zero]
    ring

/-- C8: `integrate` raises a shape-mismatch error when the value array's shape
differs from the point array's shape; otherwise it returns `4 pi` times the
trapezoidal rule on `points^2 * values` when spherical and the plain
trapezoidal rule on `values` when not, where the trapezoidal rule is the sum
`Σ (x_{i+1} - x_i)(y_i + y_{i+1})/2`. -/
theorem C8_integrate (points arr : List ℝ) :
    (arr.length ≠ points.length → ∀ spherical,
      integrate spherical points arr
        = Except.error ("The argument arr should have the points shape")) ∧
    (arr.length = points.length →
      integrate true points arr
        = Except.ok (4 * Real.pi
            * trapz (List.zipWith (fun p a => p ^ 2 * a) points arr) points) ∧
      integrate false points arr = Except.ok (trapz arr points) ∧
      ∀ y : List ℝ, y.length = points.length →
        trapz y points = ∑ i ∈ Finset.range (points.length - 1),
          (points.getD (i + 1) 0 - points.getD i 0)
            * (y.getD i 0 + y.getD (i + 1) 0) / 2) := by
  constructor
  · intro hne spherical
    rw [integrate, if_pos hne]
  · intro heq
    refine ⟨?_, ?_, ?_⟩
    · rw [integrate, if_neg (by simp [heq])]
      rfl
    · rw [integrate, if_neg (by simp [heq])]
      rfl
    · intro y hy
      exact trapz_eq_sum y points hy

/-- Witness for C8: a matching pair on the two-point grid `[0, 1]` integrates
to `4 pi * 1/2` spherically, and a mismatched pair raises the shape error. -/
theorem C8_witness :
    integrate true [0, 1] [1, 1] = Except.ok (4 * Real.pi * (1 * (0 + 1) / 2 + 0)) ∧
    integrate false [0, 1] [1] = Except.error ("The argument arr should have the points shape") := by
  constructor
  · have h := (C8_integrate [0, 1] [1, 1]).2 rfl
    rw [h.1]
    norm_num [trapz]
  · exact (C8_integrate [0, 1] [1]).1 (by norm_num) false

/-- C9 (amended): the grid constructors validate exactly these conditions:
`UniformRadialGrid` fails iff `num_pts <= 0` or `max_radii <= min_radii`;
`ClenshawRadialGrid` fails iff the atomic number is non-positive or either
point count is negative (zero counts are accepted); `CubicGrid` fails iff
`step_size <= 0` or `largest_pnt <= smallest_pnt`. -/
theorem C9_grid_validation :
    (∀ (num_pts : ℤ) (min_radii max_radii : ℝ) (spherical : Bool),
      errored (uniformRadialGrid num_pts min_radii max_radii spherical) = true
        ↔ (num_pts ≤ 0 ∨ max_radii ≤ min_radii)) ∧
    (∀ (atomic_number num_core_pts num_diffuse_pts : ℤ)
        (extra_pts : Option (List ℝ)) (spherical : Bool),
      errored (clenshawRadialGrid atomic_number num_core_pts num_diffuse_pts
          extra_pts spherical) = true
        ↔ (atomic_number ≤ 0 ∨ num_core_pts < 0 ∨ num_diffuse_pts < 0)) ∧
    (∀ (smallest_pnt largest_pnt step_size : ℝ),
      errored (cubicGrid smallest_pnt largest_pnt step_size) = true
        ↔ (step_size ≤ 0 ∨ largest_pnt ≤ smallest_pnt)) := by
  refine ⟨?_, ?_, ?_⟩
  · intro num_pts min_radii max_radii spherical
    rw [uniformRadialGrid]
    split_ifs with h1 h2
    · simp [errored, h1]
    · simp [errored, h2]
    · simp only [errored, Bool.false_eq_true, false_iff, not_or, not_le]
      exact ⟨not_le.mp h1, not_le.mp h2⟩
  · intro Z nc nd extra spherical
    rw [clenshawRadialGrid]
    split_ifs with h1 h2 h3
    · simp [errored, h1]
    · simp [errored, h2]
    · simp [errored, h3]
    · simp only [errored, Bool.false_eq_true, false_iff, not_or, not_le, not_lt]
      exact ⟨not_le.mp h1, not_lt.mp h2, not_lt.mp h3⟩
  · intro smallest_pnt largest_pnt step_size
    rw [cubicGrid]
    split_ifs with h1 h2
    · simp [errored, h1]
    · simp [errored, h2]
    · simp only [errored, Bool.false_eq_true, false_iff, not_or, not_le]
      exact ⟨not_le.mp h1, not_le.mp h2⟩

/-- Counterexample for C9 as stated: `ClenshawRadialGrid` with both point
counts equal to zero (not positive) is accepted and constructs an empty grid,
so the claim that every variant requires positive point counts fails. -/
theorem C9_counterexample :
    clenshawRadialGrid 1 0 0 none true = Except.ok ([], true) := by
  rw [clenshawRadialGrid, if_neg (by norm_num), if_neg (by norm_num), if_neg (by norm_num)]
  simp [clenshaw_points_core, clenshaw_points_diffuse]

/-- Helper for C1: whenever the closed-form denominator `b * d - a * e` is
non-zero, the pair `(A, B) = (ln coefficient, -exponent)` produced by
`_solve_one_function_weight` solves the weighted normal equations of the
log-linearized single-Gaussian model. -/
lemma solve_one_solves_normal_equations (pts density w : List ℝ)
    (hd : seedDenominator pts w ≠ 0) :
    normalEquations pts density w
      (Real.log ((solve_one_function_weight pts density w).getD 0 0))
      (-((solve_one_function_weight pts density w).getD 1 0)) := by
  have h1 : (2 * dot w (pts.map fun x => x ^ 2)) * (2 * dot w (pts.map fun x => x ^ 2))
      - (2 * w.sum) * (2 * dot w (pts.map fun x => x ^ 4)) ≠ 0 := by
    simpa [seedDenominator] using hd
  have h2 : (2 * w.sum) * (2 * dot w (pts.map fun x => x ^ 4))
      - (2 * dot w (pts.map fun x => x ^ 2)) * (2 * dot w (pts.map fun x => x ^ 2)) ≠ 0 := by
    intro hc
    apply h1
    linarith
  simp only [solve_one_function_weight, List.getD_cons_zero, List.getD_cons_succ,
    Real.log_exp, neg_neg, normalEquations]
  constructor
  · field_simp
    ring
  · field_simp
    ring

/-- C1 (amended): with the element attribute unset, each weighting's 2x2
system non-singular and the least candidate cost strictly below the `1e10`
sentinel, the seed stage returns the first of the three closed-form candidates
attaining the minimal true cost, and each candidate's
`(ln coefficient, -exponent)` solves the corresponding weighted normal
equations of `ln density = ln coefficient - exponent * r^2`. -/
theorem C1_seed_stage (g : GreedyLeastSquares) (hel : g.element = none)
    (hpos : ∀ x ∈ g.density, 0 < x)
    (h1 : seedDenominator g.points (List.replicate g.points.length 1) ≠ 0)
    (h2 : seedDenominator g.points g.density ≠ 0)
    (h3 : seedDenominator g.points (g.density.map (fun x => x ^ 2)) ≠ 0)
    (hmin : min (seed_cost_1 g) (min (seed_cost_2 g) (seed_cost_3 g)) < 1e10) :
    ((get_best_one_function_solution g = Except.ok (seed_candidate_1 g) ∧
        seed_cost_1 g = min (seed_cost_1 g) (min (seed_cost_2 g) (seed_cost_3 g))) ∨
     (get_best_one_function_solution g = Except.ok (seed_candidate_2 g) ∧
        seed_cost_2 g = min (seed_cost_1 g) (min (seed_cost_2 g) (seed_cost_3 g))) ∨
     (get_best_one_function_solution g = Except.ok (seed_candidate_3 g) ∧
        seed_cost_3 g = min (seed_cost_1 g) (min (seed_cost_2 g) (seed_cost_3 g)))) ∧
    normalEquations g.points g.density (List.replicate g.points.length 1)
      (Real.log ((seed_candidate_1 g).getD 0 0)) (-((seed_candidate_1 g).getD 1 0)) ∧
    normalEquations g.points g.density g.density
      (Real.log ((seed_candidate_2 g).getD 0 0)) (-((seed_candidate_2 g).getD 1 0)) ∧
    normalEquations g.points g.density (g.density.map (fun x => x ^ 2))
      (Real.log ((seed_candidate_3 g).getD 0 0)) (-((seed_candidate_3 g).getD 1 0)) := by
  refine ⟨?_, solve_one_solves_normal_equations _ _ _ h1,
    solve_one_solves_normal_equations _ _ _ h2, solve_one_solves_normal_equations _ _ _ h3⟩
  simp only [get_best_one_function_solution, hel]
  by_cases hc21 : seed_cost_2 g < seed_cost_1 g
  · rw [if_pos hc21, if_pos hc21]
    by_cases hc32 : seed_cost_3 g < seed_cost_2 g
    · have hmin3 : min (seed_cost_1 g) (min (seed_cost_2 g) (seed_cost_3 g))
          = seed_cost_3 g := by
        rw [min_eq_right (le_of_lt hc32)]
        exact min_eq_right (by linarith)
      rw [hmin3] at hmin
      rw [if_pos hc32, if_pos hc32, if_pos hmin]
      exact Or.inr (Or.inr ⟨rfl, hmin3.symm⟩)
    · have hmin2 : min (seed_cost_1 g) (min (seed_cost_2 g) (seed_cost_3 g))
          = seed_cost_2 g := by
        rw [min_eq_left (not_lt.mp hc32)]
        exact min_eq_right (le_of_lt hc21)
      rw [hmin2] at hmin
      rw [if_neg hc32, if_neg hc32, if_pos hmin]
      exact Or.inr (Or.inl ⟨rfl, hmin2.symm⟩)
  · rw [if_neg hc21, if_neg hc21]
    by_cases hc31 : seed_cost_3 g < seed_cost_1 g
    · have hmin3 : min (seed_cost_1 g) (min (seed_cost_2 g) (seed_cost_3 g))
          = seed_cost_3 g := by
        rw [min_eq_right (show seed_cost_3 g ≤ seed_cost_2 g by linarith [not_lt.mp hc21])]
        exact min_eq_right (le_of_lt hc31)
      rw [hmin3] at hmin
      rw [if_pos hc31, if_pos hc31, if_pos hmin]
      exact Or.inr (Or.inr ⟨rfl, hmin3.symm⟩)
    · have hmin1 : min (seed_cost_1 g) (min (seed_cost_2 g) (seed_cost_3 g))
          = seed_cost_1 g := by
        exact min_eq_left (le_min (not_lt.mp hc21) (not_lt.mp hc31))
      rw [hmin1] at hmin
      rw [if_neg hc31, if_neg hc31, if_pos hmin]
      exact Or.inl ⟨rfl, hmin1.symm⟩

/-- Witness for C1 at the grid `[0, 1]` with density `[1, 1]`: all three
systems are non-singular, the minimal cost is below the sentinel, and the seed
stage returns one of the three candidates with minimal cost. -/
theorem C1_witness :
    (∀ x ∈ (⟨[0, 1], [1, 1], none⟩ : GreedyLeastSquares).density, 0 < x) ∧
    seedDenominator [0, 1] (List.replicate 2 (1 : ℝ)) ≠ 0 ∧
    min (seed_cost_1 ⟨[0, 1], [1, 1], none⟩)
      (min (seed_cost_2 ⟨[0, 1], [1, 1], none⟩) (seed_cost_3 ⟨[0, 1], [1, 1], none⟩)) < 1e10 ∧
    ((get_best_one_function_solution ⟨[0, 1], [1, 1], none⟩
        = Except.ok (seed_candidate_1 ⟨[0, 1], [1, 1], none⟩) ∧
      seed_cost_1 ⟨[0, 1], [1, 1], none⟩ = min (seed_cost_1 ⟨[0, 1], [1, 1], none⟩)
        (min (seed_cost_2 ⟨[0, 1], [1, 1], none⟩) (seed_cost_3 ⟨[0, 1], [1, 1], none⟩))) ∨
     (get_best_one_function_solution ⟨[0, 1], [1, 1], none⟩
        = Except.ok (seed_candidate_2 ⟨[0, 1], [1, 1], none⟩) ∧
      seed_cost_2 ⟨[0, 1], [1, 1], none⟩ = min (seed_cost_1 ⟨[0, 1], [1, 1], none⟩)
        (min (seed_cost_2 ⟨[0, 1], [1, 1], none⟩) (seed_cost_3 ⟨[0, 1], [1, 1], none⟩))) ∨
     (get_best_one_function_solution ⟨[0, 1], [1, 1], none⟩
        = Except.ok (seed_candidate_3 ⟨[0, 1], [1, 1], none⟩) ∧
      seed_cost_3 ⟨[0, 1], [1, 1], none⟩ = min (seed_cost_1 ⟨[0, 1], [1, 1], none⟩)
        (min (seed_cost_2 ⟨[0, 1], [1, 1], none⟩) (seed_cost_3 ⟨[0, 1], [1, 1], none⟩)))) := by
  have hpos : ∀ x ∈ (⟨[0, 1], [1, 1], none⟩ : GreedyLeastSquares).density, 0 < x := by
    intro x hx
    simp only [List.mem_cons, List.mem_singleton] at hx
    rcases hx with h0 | h1 | hf
    · norm_num [h0]
    · norm_num [h1]
    · simp at hf
  have hden : seedDenominator [0, 1] (List.replicate 2 (1 : ℝ)) ≠ 0 := by
    norm_num [seedDenominator, dot, List.replicate]
  have hc1 : seed_cost_1 (⟨[0, 1], [1, 1], none⟩ : GreedyLeastSquares) = 0 := by
    norm_num [seed_cost_1, seed_candidate_1, cost_function, create_model,
      solve_one_function_weight, dot, List.replicate, Real.log_one, Real.exp_zero]
  have hc2 : seed_cost_2 (⟨[0, 1], [1, 1], none⟩ : GreedyLeastSquares) = 0 := by
    norm_num [seed_cost_2, seed_candidate_2, cost_function, create_model,
      solve_one_function_weight, dot, Real.log_one, Real.exp_zero]
  have hc3 : seed_cost_3 (⟨[0, 1], [1, 1], none⟩ : GreedyLeastSquares) = 0 := by
    norm_num [seed_cost_3, seed_candidate_3, cost_function, create_model,
      solve_one_function_weight, dot, Real.log_one, Real.exp_zero]
  have hmin : min (seed_cost_1 (⟨[0, 1], [1, 1], none⟩ : GreedyLeastSquares))
      (min (seed_cost_2 ⟨[0, 1], [1, 1], none⟩) (seed_cost_3 ⟨[0, 1], [1, 1], none⟩))
      < 1e10 := by
    rw [hc1, hc2, hc3]
    norm_num
  exact ⟨hpos, hden, hmin,
    (C1_seed_stage ⟨[0, 1], [1, 1], none⟩ rfl hpos hden
      (by norm_num [seedDenominator, dot])
      (by norm_num [seedDenominator, dot]) hmin).1⟩

/-- Helper for C1's counterexample: on the grid `[0, 1, 2]` with density
`[1, exp 130, 1]`, the candidate produced under the weight `[1, u, 1]` (all
three seed weights have this shape) has true cost at least `1e10` for every
`u >= 1`. -/
lemma seed_cost_big (u : ℝ) (hu : 1 ≤ u) :
    (1e10 : ℝ) ≤ cost_function [0, 1, 2] [1, Real.exp 130, 1]
      (solve_one_function_weight [0, 1, 2] [1, Real.exp 130, 1] [1, u, 1]) := by
  obtain ⟨A, B, hAB⟩ : ∃ A B,
      solve_one_function_weight [0, 1, 2] [1, Real.exp 130, 1] [1, u, 1]
        = [Real.exp A, -B] :=
    ⟨_, _, rfl⟩
  have hden : seedDenominator [0, 1, 2] [1, u, 1] ≠ 0 := by
    have hval : seedDenominator [0, 1, 2] [1, u, 1] = -(40 * u + 64) := by
      simp only [seedDenominator, dot, List.map_cons, List.map_nil, List.zipWith_cons_cons,
        List.zipWith_nil_right, List.sum_cons, List.sum_nil]
      ring
    rw [hval]
    intro hc
    linarith
  have hNE := solve_one_solves_normal_equations [0, 1, 2] [1, Real.exp 130, 1] [1, u, 1] hden
  rw [hAB] at hNE
  simp only [List.getD_cons_zero, List.getD_cons_succ, Real.log_exp, neg_neg,
    normalEquations, dot, List.map_cons, List.map_nil, List.zipWith_cons_cons,
    List.zipWith_nil_right, List.sum_cons, List.sum_nil, Real.log_one] at hNE
  norm_num at hNE
  have hA10 : (10 * u + 16) * A = 1560 * u := by
    linear_combination (16 + u) * hNE.1 - (4 + u) * hNE.2
  have hA60 : 60 ≤ A := by nlinarith [hA10]
  have hexpA : (1e5 : ℝ) + 1 ≤ Real.exp A := by
    have h2e : (2 : ℝ) ≤ Real.exp 1 := by nlinarith [Real.add_one_le_exp 1]
    have h60 : Real.exp 60 ≤ Real.exp A := Real.exp_le_exp.mpr hA60
    have hpow : (2 : ℝ) ^ (60 : ℕ) ≤ Real.exp 1 ^ (60 : ℕ) :=
      pow_le_pow_left₀ (by norm_num) h2e 60
    have hexp60 : Real.exp 1 ^ (60 : ℕ) = Real.exp 60 := by
      rw [← Real.exp_nat_mul]
      norm_num
    have hnum : (1e5 : ℝ) + 1 ≤ (2 : ℝ) ^ (60 : ℕ) := by norm_num
    nlinarith [hpow]
  rw [hAB]
  have hkey : (1e10 : ℝ) ≤ (1 - Real.exp A) ^ 2 := by nlinarith [hexpA]
  simp only [cost_function, create_model, List.length_cons, List.length_nil, List.take,
    List.drop, List.map_cons, List.map_nil, List.zipWith_cons_cons, List.zipWith_nil_right,
    List.sum_cons, List.sum_nil, neg_neg]
  norm_num
  nlinarith [hkey, sq_nonneg (Real.exp 130 - Real.exp A * Real.exp B),
    sq_nonneg (1 - Real.exp A * Real.exp (B * 4)),
    sq_nonneg (1 - Real.exp A * Real.exp (4 * B))]

/-- Counterexample for C1 as stated: on the grid `[0, 1, 2]` with the strictly
positive density `[1, exp 130, 1]` (element unset), every one of the three
candidates has cost at least `1e10`, so the `p_min[0] < val` test fails and
the seed stage does not return any of the three candidates: it raises
`NameError` on the unbound local `best_found`. -/
theorem C1_counterexample :
    get_best_one_function_solution ⟨[0, 1, 2], [1, Real.exp 130, 1], none⟩
      = Except.error ("NameError best_found is not defined") := by
  have ht : (1 : ℝ) ≤ Real.exp 130 := Real.one_le_exp (by norm_num)
  have h1 : (1e10 : ℝ) ≤ seed_cost_1 ⟨[0, 1, 2], [1, Real.exp 130, 1], none⟩ := by
    have h := seed_cost_big 1 le_rfl
    simpa [seed_cost_1, seed_candidate_1, List.replicate] using h
  have h2 : (1e10 : ℝ) ≤ seed_cost_2 ⟨[0, 1, 2], [1, Real.exp 130, 1], none⟩ := by
    have h := seed_cost_big (Real.exp 130) ht
    simpa [seed_cost_2, seed_candidate_2] using h
  have h3 : (1e10 : ℝ) ≤ seed_cost_3 ⟨[0, 1, 2], [1, Real.exp 130, 1], none⟩ := by
    have hu : (1 : ℝ) ≤ (Real.exp 130) ^ 2 := by nlinarith [ht]
    have h := seed_cost_big ((Real.exp 130) ^ 2) hu
    simpa [seed_cost_3, seed_candidate_3] using h
  simp only [get_best_one_function_solution]
  split_ifs with ha hb hc hd he hf <;> first
    | rfl
    | (exfalso; linarith)

end BFit

end
